import Mathlib

/-!
Verification of the story-graph engine (game.py): data model, story validator,
choice filter, scene-text parser, renderers and the step state machine are
embedded as executable Lean definitions, translated from the Python source.
Python dictionaries whose keys are read with defaulted access are modelled as
structures with default fields; the stats dictionary, which is only ever read
through get with default 0, is modelled as a total function from stat names to
integers; Python sets of flags are modelled as lists used through membership.
Operations that can raise (dictionary indexing, int conversion) are modelled in
the Except monad, so that a raised exception is an error value.
-/

/-! ## Python character classes and string primitives -/

/-- Whitespace characters recognised by the Python str.strip method and by the
regex class backslash-s: ASCII whitespace, the C1 separators, and the Unicode
space separators. -/
def isPySpace (c : Char) : Bool :=
  (0x9 ≤ c.toNat && c.toNat ≤ 0xD) || (0x1C ≤ c.toNat && c.toNat ≤ 0x1F) ||
  c = ' ' || c.toNat = 0x85 || c.toNat = 0xA0 || c.toNat = 0x1680 ||
  (0x2000 ≤ c.toNat && c.toNat ≤ 0x200A) || c.toNat = 0x2028 ||
  c.toNat = 0x2029 || c.toNat = 0x202F || c.toNat = 0x205F || c.toNat = 0x3000

/-- The str.strip method with no argument: drop leading and trailing
whitespace. -/
def pyStrip (s : String) : String :=
  String.mk (((s.data.dropWhile isPySpace).reverse.dropWhile isPySpace).reverse)

/-- Decimal digits (Unicode category Nd) together with their numeric value:
these are the characters matched by the regex class backslash-d and accepted by
the int constructor.  The principal ranges are modelled: ASCII, Arabic-Indic,
extended Arabic-Indic, Devanagari, and fullwidth digits. -/
def pyDigitVal? (c : Char) : Option Nat :=
  if 0x30 ≤ c.toNat && c.toNat ≤ 0x39 then some (c.toNat - 0x30)
  else if 0x660 ≤ c.toNat && c.toNat ≤ 0x669 then some (c.toNat - 0x660)
  else if 0x6F0 ≤ c.toNat && c.toNat ≤ 0x6F9 then some (c.toNat - 0x6F0)
  else if 0x966 ≤ c.toNat && c.toNat ≤ 0x96F then some (c.toNat - 0x966)
  else if 0xFF10 ≤ c.toNat && c.toNat ≤ 0xFF19 then some (c.toNat - 0xFF10)
  else none

/-- A character of the regex class backslash-d (Numeric_Type=Decimal). -/
def isPyReDigit (c : Char) : Bool := (pyDigitVal? c).isSome

/-- Characters with Unicode property Numeric_Type=Digit that are not decimal
digits: accepted by str.isdigit but rejected by the int constructor.  The
principal ranges are modelled: superscript one, two, three, the superscript
block, the subscript block and the circled digits one to nine. -/
def isPyDigitNotDecimal (c : Char) : Bool :=
  c.toNat = 0xB9 || c.toNat = 0xB2 || c.toNat = 0xB3 ||
  (0x2070 ≤ c.toNat && c.toNat ≤ 0x2079) ||
  (0x2080 ≤ c.toNat && c.toNat ≤ 0x2089) ||
  (0x2460 ≤ c.toNat && c.toNat ≤ 0x2468)

/-- One character of the str.isdigit class: Numeric_Type=Decimal or
Numeric_Type=Digit. -/
def pyIsDigitChar (c : Char) : Bool := isPyReDigit c || isPyDigitNotDecimal c

/-- The str.isdigit method: true on a non-empty string all of whose characters
are digits in the Unicode sense (decimal digits or digit-only characters such
as superscripts). -/
def pyStrIsDigit (s : String) : Bool := !s.isEmpty && s.data.all pyIsDigitChar

/-- Numeric value of a run of decimal digits, as computed by the int
constructor. -/
def digitsToNat (ds : List Char) : Nat :=
  ds.foldl (fun a c => 10 * a + (pyDigitVal? c).getD 0) 0

/-- The int constructor applied to a string that already satisfies str.isdigit:
it succeeds exactly when every character is a decimal digit (category Nd), and
fails with ValueError on digit-only characters such as the superscript two.
(On isdigit-true strings there is no sign, whitespace or underscore to strip,
so this is the whole behaviour of int there.) -/
def pyIntParse? (s : String) : Option Int :=
  if !s.isEmpty && s.data.all isPyReDigit then some (digitsToNat s.data : Int)
  else none

/-- Insertion into a sorted list of strings, comparing by code points as the
Python sorted builtin does. -/
def insertSorted (s : String) : List String → List String
  | [] => [s]
  | t :: ts => if s ≤ t then s :: t :: ts else t :: insertSorted s ts

/-- The Python sorted builtin on a collection of strings. -/
def sortStrings (l : List String) : List String := l.foldr insertSorted []

/-! ## Data model of a validated story (game.py lines 18 to 115)

After validate_story succeeds, every field access performed by the engine goes
through get with a default (requires, set_flags, delta_stats, requires_stats,
choices, ending) or is guaranteed present (text, next, title, start, nodes).
An absent optional field and its default value are indistinguishable to the
engine, so optional fields are modelled as fields with default values.
delta_stats and requires_stats are insertion-ordered dictionaries, modelled as
association lists; the delta application loop iterates them in order. -/

structure Choice where
  text : String
  next : String
  requires : List String := []
  set_flags : List String := []
  delta_stats : List (String × Int) := []
  requires_stats : List (String × Int) := []
  deriving DecidableEq, Repr

structure Node where
  text : String
  choices : List Choice := []
  ending : Bool := false
  deriving DecidableEq, Repr

structure StatsConfig where
  suspicion_max : Int
  suspicion_fail_node : String
  deriving DecidableEq, Repr

structure Story where
  title : String
  start : String
  nodes : List (String × Node)
  stats_config : Option StatsConfig := none
  flag_descriptions : List (String × String) := []
  deriving DecidableEq, Repr

/-- Python dictionary lookup on an association list (keys are unique in a
Python dictionary; lookup returns the first binding). -/
def alookup {α : Type} (l : List (String × α)) (k : String) : Option α :=
  (l.find? (fun p => p.1 = k)).map (fun p => p.2)

/-- The mutable game state threaded through step (game.py lines 371 to 379).
The Python code reads flags, history_stack, stats, last_choice and help_mode
with defaulted access, so a dictionary missing one of those keys behaves as the
default; mode and node_id are accessed directly.  stats is modelled as a total
function because every read of the stats dictionary defaults absent keys
to 0. -/
structure GameState where
  node_id : String
  history_stack : List String
  mode : String
  flags : List String := []
  stats : String → Int := fun _ => 0
  last_choice : Option String := none
  help_mode : Int := 0

/-- Pointwise update of a stats map, modelling assignment to one key of the
stats dictionary. -/
def updateStat (stats : String → Int) (k : String) (v : Int) : String → Int :=
  fun x => if x = k then v else stats x

/-! ## Choice filter (game.py lines 118 to 162) -/

/-- The visibility test of get_choices: the requires list (defaulted empty) is
a subset of the flags, and every requires_stats threshold is met by the current
stats (absent stats default to 0). -/
def choiceVisible (flags : List String) (stats : String → Int) (c : Choice) : Bool :=
  c.requires.all (fun f => flags.contains f) &&
  c.requires_stats.all (fun p => decide (p.2 ≤ stats p.1))

/-- Visible choices of a node, in declared order. -/
def visibleChoicesOf (node : Node) (flags : List String) (stats : String → Int) :
    List Choice :=
  node.choices.filter (choiceVisible flags stats)

/-- get_choices: looks the node up in the nodes dictionary (KeyError when
absent) and filters its choices by visibility. -/
def get_choices (story : Story) (node_id : String) (flags : List String)
    (stats : String → Int) : Except String (List Choice) :=
  match alookup story.nodes node_id with
  | none => Except.error "KeyError"
  | some node => Except.ok (visibleChoicesOf node flags stats)

/-- One entry of the locked computation: the choice together with its missing
flags and its unmet stat thresholds, each in declared order. -/
def lockedEntry (flags : List String) (stats : String → Int) (c : Choice) :
    Choice × List String × List (String × Int) :=
  (c, c.requires.filter (fun f => !flags.contains f),
      c.requires_stats.filter (fun p => decide (stats p.1 < p.2)))

/-- Locked entries of a node: the choices with a non-empty missing list. -/
def lockedChoicesOf (node : Node) (flags : List String) (stats : String → Int) :
    List (Choice × List String × List (String × Int)) :=
  (node.choices.map (lockedEntry flags stats)).filter
    (fun e => !(e.2.1.isEmpty && e.2.2.isEmpty))

/-- get_locked_choices: node lookup then the locked entries. -/
def get_locked_choices (story : Story) (node_id : String) (flags : List String)
    (stats : String → Int) :
    Except String (List (Choice × List String × List (String × Int))) :=
  match alookup story.nodes node_id with
  | none => Except.error "KeyError"
  | some node => Except.ok (lockedChoicesOf node flags stats)

/-- apply_choice: recompute the visible choices, raise IndexError when the
1-based index is out of range, otherwise return the destination, the flags to
set and the stat deltas of the chosen choice. -/
def apply_choice (story : Story) (node_id : String) (choice_index : Int)
    (flags : List String) (stats : String → Int) :
    Except String (String × List String × List (String × Int)) :=
  match get_choices story node_id flags stats with
  | Except.error e => Except.error e
  | Except.ok choices =>
    if choice_index < 1 || (choices.length : Int) < choice_index then
      Except.error "IndexError"
    else
      match choices.get? (choice_index - 1).toNat with
      | none => Except.error "IndexError"
      | some c => Except.ok (c.next, c.set_flags, c.delta_stats)

/-! ## Scene-text parser (game.py lines 165 to 172)

The regex is anchored at the start of the text: a lazy run of one or more
non-whitespace characters (the route token), the literal character 第, one or
more decimal digits (greedy), the literal character 场, an ASCII or fullwidth
colon, then a greedy run of optional whitespace.  Lazy matching of the route
token means the match with the shortest route wins. -/

/-- After the separator 第: require a non-empty maximal run of decimal digits,
then 场, then one colon, then consume the maximal whitespace run.  Returns the
parsed index and the remaining text.  (Backtracking the greedy digit run
cannot help: shrinking it puts a digit where 场 is required.) -/
def completeScene (cs : List Char) : Option (Nat × List Char) :=
  if (cs.takeWhile isPyReDigit).isEmpty then none
  else
    match cs.dropWhile isPyReDigit with
    | d :: c :: rest2 =>
      if d = '场' && (c = ':' || c = '：') then
        some (digitsToNat (cs.takeWhile isPyReDigit), rest2.dropWhile isPySpace)
      else none
    | _ => none

/-- The walker for the lazy route token: acc holds the route characters read
so far, in reverse.  At each position, if the current character is 第 and the
route is non-empty, try to complete the match (shortest route first, as lazy
matching requires); on failure the character joins the route when it is
non-whitespace, and the match fails when a whitespace character is reached. -/
def sceneWalk : List Char → List Char → Option (String × Nat × List Char)
  | _, [] => none
  | acc, c :: cs =>
    if c = '第' && !acc.isEmpty then
      match completeScene cs with
      | some (n, rest) => some (String.mk acc.reverse, n, rest)
      | none => sceneWalk (c :: acc) cs
    else if isPySpace c then none
    else sceneWalk (c :: acc) cs

/-- strip_scene_prefix: on a regex match, the text with the prefix removed and
the route and index metadata; otherwise the original text with empty
metadata. -/
def strip_scene_prefix (text : String) : String × Option (String × Nat) :=
  match sceneWalk [] text.data with
  | none => (text, none)
  | some (route, n, rest) => (String.mk rest, some (route, n))

/-! ## Renderers (game.py lines 175 to 209) -/

/-- Human-readable reason for one unmet stat threshold. -/
def statText (key : String) : String :=
  if key = "silver" then "钱袋不够沉"
  else if key = "suspicion" then "风声太紧"
  else "时机不对"

/-- One line of the locked block. -/
def lockedLine (e : Choice × List String × List (String × Int)) : String :=
  let requirements :=
    (if e.2.1.isEmpty then [] else ["条件未具备"]) ++
    (if e.2.2.isEmpty then []
     else [String.intercalate " / " (e.2.2.map (fun p => statText p.1))])
  "- " ++ e.1.text ++ "（" ++ String.intercalate "; " requirements ++ "）"

/-- Numbered visible-choice lines, 1-based. -/
def numberLines : Nat → List Choice → List String
  | _, [] => []
  | i, c :: cs => (toString i ++ ". " ++ c.text) :: numberLines (i + 1) cs

/-- Body of the normal rendering for a found node. -/
def renderNormalNode (node : Node) (flags : List String) (stats : String → Int) :
    List String :=
  let clean := ( strip_scene_prefix node.text).1
  let visible := visibleChoicesOf node flags stats
  let locked := lockedChoicesOf node flags stats
  let lockedBlock :=
    if locked.isEmpty then [] else "【尚不可行】" :: locked.map lockedLine
  [clean, "请选择："] ++ numberLines 1 visible ++ lockedBlock ++
    ["输入 0 查看帮助，9 退出，8 后退。"]

/-- The _render_normal helper: node lookup (KeyError when absent), scene prefix
stripped from the display text, numbered visible choices, the locked block when
non-empty, and the fixed footer. -/
def renderNormal (story : Story) (node_id : String) (flags : List String)
    (stats : String → Int) : Except String (List String) :=
  match alookup story.nodes node_id with
  | none => Except.error "KeyError"
  | some node => Except.ok (renderNormalNode node flags stats)

/-- The _render_ending helper: node lookup, scene prefix stripped, fixed
restart and exit hint.  The stats argument is unused, as in the source. -/
def renderEnding (story : Story) (node_id : String) (stats : String → Int) :
    Except String (List String) :=
  match alookup story.nodes node_id with
  | none => Except.error "KeyError"
  | some node =>
    Except.ok [( strip_scene_prefix node.text).1, "结局：输入 1 重开，9 退出。"]

/-! ## The step state machine (game.py lines 212 to 359)

step mutates the dictionary it is passed in exactly one place (the help branch
writes the toggled help_mode back into it) and in several branches returns that
very dictionary rather than a newly allocated one.  To make this frame effect
visible in a pure embedding, the result records both the contents of the
caller-owned argument dictionary after the call (callerState) and the returned
state (state), together with a flag telling whether the returned state is a
newly allocated dictionary (fresh = true) or the argument object itself
(fresh = false). -/

structure StepOut where
  callerState : GameState
  state : GameState
  lines : List String
  exitFlag : Bool
  fresh : Bool

/-- Empty input (game.py lines 224 to 229): re-render the current node in the
current mode, no state change, the argument dictionary is returned as is. -/
def stepEmptyInput (state : GameState) (story : Story) : Except String StepOut :=
  if state.mode = "ending" then
    match renderEnding story state.node_id state.stats with
    | Except.error e => Except.error e
    | Except.ok ls => Except.ok ⟨state, state, ls, false, false⟩
  else
    match renderNormal story state.node_id state.flags state.stats with
    | Except.error e => Except.error e
    | Except.ok ls => Except.ok ⟨state, state, ls, false, false⟩

/-- The fresh game state built by the restart branch (game.py lines 233 to
239): the new dictionary carries no last_choice and no help_mode key, which the
engine reads back as none and 0. -/
def freshRestart (story : Story) : GameState :=
  { node_id := story.start, history_stack := [], mode := "normal",
    flags := [], stats := fun _ => 0, last_choice := none, help_mode := 0 }

/-- Ending mode with non-empty input (game.py lines 231 to 249): 1 restarts
with a fresh state and renders the start node, 9 exits, anything else is
invalid input followed by the ending rendering. -/
def stepEnding (state : GameState) (trimmed : String) (story : Story) :
    Except String StepOut :=
  if trimmed = "1" then
    match renderNormal story story.start [] (fun _ => 0) with
    | Except.error e => Except.error e
    | Except.ok ls => Except.ok ⟨state, freshRestart story, ls, false, true⟩
  else if trimmed = "9" then
    Except.ok ⟨state, state, ["已退出游戏。"], true, false⟩
  else
    match renderEnding story state.node_id state.stats with
    | Except.error e => Except.error e
    | Except.ok ls => Except.ok ⟨state, state, "无效输入" :: ls, false, false⟩

/-- The diagnostic block of the help branch (game.py lines 256 to 267):
current node id, the sorted flags when non-empty, the two tracked stats, the
scene metadata of the node text when present, and a closing hint. -/
def debugBlock (state : GameState) (node : Node) : List String :=
  ["调试信息：node_id=" ++ state.node_id] ++
  (if state.flags.isEmpty then []
   else ["flags=" ++ String.intercalate ", " (sortStrings state.flags)]) ++
  ["stats: suspicion=" ++ toString (state.stats "suspicion") ++
    ", silver=" ++ toString (state.stats "silver")] ++
  (match ( strip_scene_prefix node.text).2 with
   | some (route, idx) => ["route=" ++ route ++ ", index=" ++ toString idx]
   | none => []) ++
  ["提示：再次输入 0 返回简洁帮助。"]

/-- Help branch (game.py lines 251 to 271): node lookup first (KeyError when
the current node is missing), the two help lines, the diagnostic block exactly
when help_mode was 1 on entry, then the toggled help_mode is written back into
the argument dictionary, which is also the returned state; finally the normal
rendering is appended. -/
def stepHelp (state : GameState) (story : Story) : Except String StepOut :=
  match alookup story.nodes state.node_id with
  | none => Except.error "KeyError"
  | some node =>
    match renderNormal story state.node_id state.flags state.stats with
    | Except.error e => Except.error e
    | Except.ok ls =>
      Except.ok ⟨{ state with help_mode := if state.help_mode = 1 then 0 else 1 },
        { state with help_mode := if state.help_mode = 1 then 0 else 1 },
        ["帮助：输入 1..N 选择，8 后退，9 退出。", "提示：回车可重显当前内容。"] ++
          (if state.help_mode = 1 then debugBlock state node else []) ++ ls,
        false, false⟩

/-- Back branch (game.py lines 277 to 290): with non-empty history, pop the
last entry into a new dictionary (which carries no last_choice and no
help_mode key) and render it; with empty history, the cannot-go-back message
and the unchanged current node. -/
def stepBack (state : GameState) (story : Story) : Except String StepOut :=
  match state.history_stack.getLast? with
  | some last =>
    match renderNormal story last state.flags state.stats with
    | Except.error e => Except.error e
    | Except.ok ls =>
      Except.ok ⟨state,
        { node_id := last, history_stack := state.history_stack.dropLast,
          mode := "normal", flags := state.flags, stats := state.stats,
          last_choice := none, help_mode := 0 },
        ls, false, true⟩
  | none =>
    match renderNormal story state.node_id state.flags state.stats with
    | Except.error e => Except.error e
    | Except.ok ls =>
      Except.ok ⟨state, state, "无法后退，已经在起点。" :: ls, false, false⟩

/-- Invalid input (game.py lines 357 to 359): the message and the unchanged
current node rendering; the argument dictionary is returned as is. -/
def invalidOut (state : GameState) (story : Story) : Except String StepOut :=
  match renderNormal story state.node_id state.flags state.stats with
  | Except.error e => Except.error e
  | Except.ok ls => Except.ok ⟨state, state, "无效输入" :: ls, false, false⟩

/-- The flavor lines for one stat delta (game.py lines 304 to 314): only the
silver and suspicion stats produce a line, and only for a non-zero delta. -/
def deltaLine (key : String) (delta : Int) : List String :=
  if delta = 0 then []
  else if key = "silver" then
    (if 0 < delta then ["钱袋沉了一些。"] else ["钱袋轻了些。"])
  else if key = "suspicion" then
    (if 0 < delta then ["你感觉目光变得更锋利了。"] else ["风声似乎缓了一点。"])
  else []

/-- The delta application loop (game.py lines 302 to 314): fold the deltas in
dictionary order into the stats, collecting the flavor lines in order. -/
def applyDeltas (stats : String → Int) :
    List (String × Int) → (String → Int) × List String
  | [] => (stats, [])
  | (k, d) :: rest =>
    let step1 := applyDeltas (updateStat stats k (stats k + d)) rest
    (step1.1, deltaLine k d ++ step1.2)

/-- The silver clamp (game.py lines 315 to 316). -/
def clampSilver (stats : String → Int) : String → Int :=
  if stats "silver" < 0 then updateStat stats "silver" 0 else stats

/-- Landing at the resolved destination when no forced ending applies
(game.py lines 333 to 355): the destination node is looked up (KeyError when
absent); an ending destination switches the mode to ending and renders the
ending, otherwise the mode stays normal and the destination is rendered
normally.  The new state is a newly allocated dictionary. -/
def stepLand (state : GameState) (story : Story) (next_node_id : String)
    (flags2 history2 : List String) (stats3 : String → Int)
    (last2 : Option String) (dlines : List String) : Except String StepOut :=
  match alookup story.nodes next_node_id with
  | none => Except.error "KeyError"
  | some nextNode =>
    if nextNode.ending then
      match renderEnding story next_node_id stats3 with
      | Except.error e => Except.error e
      | Except.ok ls =>
        Except.ok ⟨state,
          { node_id := next_node_id, history_stack := history2, mode := "ending",
            flags := flags2, stats := stats3, last_choice := last2,
            help_mode := state.help_mode },
          dlines ++ ls, false, true⟩
    else
      match renderNormal story next_node_id flags2 stats3 with
      | Except.error e => Except.error e
      | Except.ok ls =>
        Except.ok ⟨state,
          { node_id := next_node_id, history_stack := history2, mode := "normal",
            flags := flags2, stats := stats3, last_choice := last2,
            help_mode := state.help_mode },
          dlines ++ ls, false, true⟩

/-- The suspicion-threshold check, which takes precedence over the chosen
destination (game.py lines 317 to 332): with stats_config present and the
post-delta suspicion at or over the threshold, the machine moves to the
configured fail node in ending mode, appends the forced-failure flavor line
and renders the ending.  For a story with stats_config present, validation
guarantees suspicion_max is an integer and suspicion_fail_node a non-empty
string, so the None and truthiness guards of line 320 reduce to the threshold
comparison. -/
def stepResolve (state : GameState) (story : Story) (next_node_id : String)
    (flags2 history2 : List String) (stats3 : String → Int)
    (last2 : Option String) (dlines : List String) : Except String StepOut :=
  match story.stats_config with
  | some cfg =>
    if cfg.suspicion_max ≤ stats3 "suspicion" then
      match renderEnding story cfg.suspicion_fail_node stats3 with
      | Except.error e => Except.error e
      | Except.ok ls =>
        Except.ok ⟨state,
          { node_id := cfg.suspicion_fail_node, history_stack := history2,
            mode := "ending", flags := flags2, stats := stats3,
            last_choice := last2, help_mode := state.help_mode },
          dlines ++ ["你察觉风声骤紧，麻烦在逼近。"] ++ ls, false, true⟩
    else stepLand state story next_node_id flags2 history2 stats3 last2 dlines
  | none => stepLand state story next_node_id flags2 history2 stats3 last2 dlines

/-- In-range digit input (game.py lines 292 to 355): resolve the choice, set
flags, push the current node on the history, apply the deltas and the silver
clamp, then the forced-ending check and the landing.  An out-of-range index
falls through to the invalid branch. -/
def stepChoice (state : GameState) (choice_index : Int) (story : Story) :
    Except String StepOut :=
  match get_choices story state.node_id state.flags state.stats with
  | Except.error e => Except.error e
  | Except.ok choices =>
    if 1 ≤ choice_index && choice_index ≤ (choices.length : Int) then
      match apply_choice story state.node_id choice_index state.flags state.stats with
      | Except.error e => Except.error e
      | Except.ok (next_node_id, new_flags, delta_stats) =>
        match choices.get? (choice_index - 1).toNat with
        | none => Except.error "IndexError"
        | some chosen =>
          stepResolve state story next_node_id
            (state.flags ++ (new_flags.dedup.filter (fun x => !state.flags.contains x)))
            (state.history_stack ++ [state.node_id])
            (clampSilver (applyDeltas state.stats delta_stats).1)
            (some chosen.text)
            (applyDeltas state.stats delta_stats).2
    else
      invalidOut state story

/-- The step transition function (game.py lines 212 to 359), with branches in
source order: empty input, ending mode, help, exit, back, digit input (where
str.isdigit admits digit-only characters that the int constructor then rejects
with ValueError), and the invalid-input fallthrough. -/
def step (state : GameState) (user_input : String) (story : Story) :
    Except String StepOut :=
  if pyStrip user_input = "" then stepEmptyInput state story
  else if state.mode = "ending" then stepEnding state (pyStrip user_input) story
  else if pyStrip user_input = "0" then stepHelp state story
  else if pyStrip user_input = "9" then
    Except.ok ⟨state, state, ["已退出游戏。"], true, false⟩
  else if pyStrip user_input = "8" then stepBack state story
  else if pyStrIsDigit (pyStrip user_input) then
    match pyIntParse? (pyStrip user_input) with
    | none => Except.error "ValueError: invalid literal for int() with base 10"
    | some choice_index => stepChoice state choice_index story
  else invalidOut state story

/-- The initial game state of run_game (game.py lines 371 to 379). -/
def initialState (story : Story) : GameState :=
  { node_id := story.start, history_stack := [], mode := "normal",
    flags := [], stats := fun _ => 0, last_choice := none, help_mode := 0 }

/-- States reachable by the turn loop: the initial state, closed under
successful step transitions (the loop continues with the returned state). -/
inductive Reachable (story : Story) : GameState → Prop where
  | init : Reachable story (initialState story)
  | stepped : ∀ s input out, Reachable story s →
      step s input story = Except.ok out → Reachable story out.state

/-! ## Well-formedness

Boolean predicates recording the guarantees that validate_story (game.py lines
18 to 115) establishes about a story that the engine consumes, and that the
turn loop maintains about the state it threads: they are the hypotheses under
which the gameplay claims are stated. -/

/-- Facts validate_story guarantees and the engine relies on: the start node
exists (line 45), nodes are non-empty (line 30), ending nodes carry no choices
and other nodes carry at least one (lines 56 to 61), every choice destination
exists (line 75), and a present stats_config has a non-negative threshold and
an existing, non-blank fail node (lines 37 to 44). -/
def storyWF (story : Story) : Bool :=
  (alookup story.nodes story.start).isSome &&
  !story.nodes.isEmpty &&
  story.nodes.all (fun p =>
    (if p.2.ending then p.2.choices.isEmpty else !p.2.choices.isEmpty) &&
    p.2.choices.all (fun c => (alookup story.nodes c.next).isSome)) &&
  (match story.stats_config with
   | some cfg =>
     (alookup story.nodes cfg.suspicion_fail_node).isSome &&
     decide (0 ≤ cfg.suspicion_max) && !(pyStrip cfg.suspicion_fail_node).isEmpty
   | none => true)

/-- A well-formed game state: the current node and all history entries exist
in the story, the mode is one of the two machine modes, and help_mode is a
proper toggle value. -/
def stateWF (story : Story) (s : GameState) : Bool :=
  (alookup story.nodes s.node_id).isSome &&
  (s.mode == "normal" || s.mode == "ending") &&
  s.history_stack.all (fun nid => (alookup story.nodes nid).isSome) &&
  (s.help_mode == 0 || s.help_mode == 1)

/-! ## Demonstration stories and states, used as concrete instances -/

def demoStartNode : Node :=
  { text := "起点",
    choices :=
      [ { text := "前进", next := "end" },
        { text := "冒险", next := "start",
          delta_stats := [("suspicion", 2), ("silver", -5)] },
        { text := "需要线索", next := "end", requires := ["clue"] },
        { text := "买通", next := "end", requires_stats := [("silver", 3)] } ] }

def demoEndNode : Node := { text := "终局", ending := true }

def demoStory : Story :=
  { title := "测试", start := "start",
    nodes := [("start", demoStartNode), ("end", demoEndNode)],
    flag_descriptions := [("clue", "线索")] }

/-- A story whose single start choice raises suspicion to the threshold while
jumping to an ending node of its own: the forced-failure override must win
over that destination. -/
def riskChoice : Choice :=
  { text := "冒险", next := "goodend", delta_stats := [("suspicion", 3)] }

def riskStartNode : Node := { text := "起点", choices := [riskChoice] }

def riskStory : Story :=
  { title := "测试", start := "start",
    nodes :=
      [("start", riskStartNode),
       ("goodend", { text := "好结局", ending := true }),
       ("badend", { text := "失风被捕", ending := true })],
    stats_config := some { suspicion_max := 3, suspicion_fail_node := "badend" } }

/-- An ending-mode state of the demo story. -/
def demoEndingState : GameState :=
  { node_id := "end", history_stack := ["start"], mode := "ending",
    flags := [], stats := fun _ => 0, last_choice := none, help_mode := 0 }

/-- A normal-mode demo state with one history entry. -/
def demoBackState : GameState :=
  { node_id := "start", history_stack := ["start"], mode := "normal",
    flags := [], stats := fun _ => 0, last_choice := none, help_mode := 0 }

/-- A normal-mode demo state with the diagnostic toggle armed. -/
def demoHelpState : GameState :=
  { node_id := "start", history_stack := [], mode := "normal",
    flags := ["clue"], stats := fun _ => 0, last_choice := none, help_mode := 1 }

/-! ## Raw story payloads and the validator (game.py lines 18 to 115)

validate_story runs on the raw loaded payload, before any trusted shape
exists, so it is embedded over a model of Python values.  Dictionaries are
insertion-ordered association lists with string keys (every dictionary the
validator inspects has string keys).  Python booleans are also ints, but no
claim involves a boolean where an int is checked, so ints and booleans are
modelled as distinct values. -/

inductive PyVal where
  | pstr : String → PyVal
  | pint : Int → PyVal
  | pbool : Bool → PyVal
  | pnone : PyVal
  | plist : List PyVal → PyVal
  | pdict : List (String × PyVal) → PyVal

/-- Python dict get with default None. -/
def pyGet (d : List (String × PyVal)) (k : String) : PyVal :=
  (alookup d k).getD PyVal.pnone

/-- Python truthiness of the modelled values. -/
def pyTruthy : PyVal → Bool
  | PyVal.pstr s => !s.isEmpty
  | PyVal.pint n => decide (n ≠ 0)
  | PyVal.pbool b => b
  | PyVal.pnone => false
  | PyVal.plist l => !l.isEmpty
  | PyVal.pdict l => !l.isEmpty

/-- A list of strings (the shape check for requires and set_flags). -/
def isStrList : PyVal → Bool
  | PyVal.plist l => l.all (fun x => match x with | PyVal.pstr _ => true | _ => false)
  | _ => false

/-- A map from strings to ints (the shape check for delta_stats and
requires_stats); keys are strings by construction of the model. -/
def isIntMap : PyVal → Bool
  | PyVal.pdict l => l.all (fun p => match p.2 with | PyVal.pint _ => true | _ => false)
  | _ => false

/-- The flag_descriptions check (game.py lines 32 to 33): the defaulted value
must be a dict unless it is None. -/
def checkFlagDesc (v : PyVal) : Except String Unit :=
  match v with
  | PyVal.pnone => Except.ok ()
  | PyVal.pdict _ => Except.ok ()
  | _ => Except.error "故事结构错误：flag_descriptions 必须是对象"

/-- The stats_config check (game.py lines 34 to 44). -/
def checkStatsConfig (nodes : List (String × PyVal)) (v : PyVal) :
    Except String Unit :=
  match v with
  | PyVal.pnone => Except.ok ()
  | PyVal.pdict cfg =>
    (match pyGet cfg "suspicion_max" with
     | PyVal.pint m =>
       if m < 0 then Except.error "故事结构错误：suspicion_max 必须是非负整数"
       else
         (match pyGet cfg "suspicion_fail_node" with
          | PyVal.pstr f =>
            if (pyStrip f).isEmpty then
              Except.error "故事结构错误：suspicion_fail_node 必须是字符串"
            else if (alookup nodes f).isNone then
              Except.error "故事结构错误：suspicion_fail_node 不存在"
            else Except.ok ()
          | _ => Except.error "故事结构错误：suspicion_fail_node 必须是字符串")
     | _ => Except.error "故事结构错误：suspicion_max 必须是非负整数")
  | _ => Except.error "故事结构错误：stats_config 必须是对象"

/-- The string elements of a list value; at its use site the value has
already passed the string-list shape check, so this is the list itself. -/
def strListElems : PyVal → List String
  | PyVal.plist l =>
    l.filterMap (fun x => match x with | PyVal.pstr s => some s | _ => none)
  | _ => []

/-- The missing-description check (game.py lines 93 to 98): every name in
requires must be a key of flag_descriptions.  A membership test against an
explicit None flag_descriptions raises TypeError in Python once the first
element is tested. -/
def checkDescribed (node_id : String) (fdv : PyVal) (rl : List String) :
    Except String Unit :=
  match fdv with
  | PyVal.pdict fd =>
    if (rl.filter (fun f => (alookup fd f).isNone)).isEmpty then Except.ok ()
    else
      Except.error ("故事结构错误：节点 " ++ node_id ++ " 选项 requires 未定义描述：" ++
        String.intercalate ", " (rl.filter (fun f => (alookup fd f).isNone)))
  | _ =>
    if rl.isEmpty then Except.ok ()
    else Except.error "TypeError: argument of type NoneType is not iterable"

/-- The per-choice checks (game.py lines 62 to 114), in source order: object
shape, text, next non-blank and resolvable, requires is a string list,
set_flags is a string list, requires names all described, delta_stats and
requires_stats are int maps. -/
def validateChoice (node_id : String) (fdv : PyVal)
    (nodes : List (String × PyVal)) (cv : PyVal) : Except String Unit :=
  match cv with
  | PyVal.pdict choice => do
    (match pyGet choice "text" with
     | PyVal.pstr t =>
       if (pyStrip t).isEmpty then
         Except.error ("故事结构错误：节点 " ++ node_id ++ " 选项缺少文本")
       else Except.ok ()
     | _ => Except.error ("故事结构错误：节点 " ++ node_id ++ " 选项缺少文本"))
    (match pyGet choice "next" with
     | PyVal.pstr nxt =>
       if (pyStrip nxt).isEmpty then
         Except.error ("故事结构错误：节点 " ++ node_id ++ " 选项缺少跳转")
       else if (alookup nodes nxt).isNone then
         Except.error ("故事结构错误：节点 " ++ node_id ++ " 选项跳转不存在：" ++ nxt)
       else Except.ok ()
     | _ => Except.error ("故事结构错误：节点 " ++ node_id ++ " 选项缺少跳转"))
    (match pyGet choice "requires" with
     | PyVal.pnone => Except.ok ()
     | rv =>
       if isStrList rv then Except.ok ()
       else Except.error ("故事结构错误：节点 " ++ node_id ++
         " 选项 requires 必须是字符串列表"))
    (match pyGet choice "set_flags" with
     | PyVal.pnone => Except.ok ()
     | rv =>
       if isStrList rv then Except.ok ()
       else Except.error ("故事结构错误：节点 " ++ node_id ++
         " 选项 set_flags 必须是字符串列表"))
    (match pyGet choice "requires" with
     | PyVal.pnone => Except.ok ()
     | rv => checkDescribed node_id fdv (strListElems rv))
    (match pyGet choice "delta_stats" with
     | PyVal.pnone => Except.ok ()
     | rv =>
       if isIntMap rv then Except.ok ()
       else Except.error ("故事结构错误：节点 " ++ node_id ++
         " 选项 delta_stats 必须是整数映射"))
    (match pyGet choice "requires_stats" with
     | PyVal.pnone => Except.ok ()
     | rv =>
       if isIntMap rv then Except.ok ()
       else Except.error ("故事结构错误：节点 " ++ node_id ++
         " 选项 requires_stats 必须是整数映射"))
  | _ => Except.error ("故事结构错误：节点 " ++ node_id ++ " 选项必须是对象")

/-- The per-node checks (game.py lines 48 to 114): object shape, non-blank
text, a truthy ending forbids choices, otherwise choices must be a non-empty
list and every choice is checked in order. -/
def validateNode (fdv : PyVal) (nodes : List (String × PyVal))
    (p : String × PyVal) : Except String Unit :=
  match p.2 with
  | PyVal.pdict node =>
    (match pyGet node "text" with
     | PyVal.pstr t =>
       if (pyStrip t).isEmpty then
         Except.error ("故事结构错误：节点 " ++ p.1 ++ " 缺少文本")
       else if pyTruthy ((alookup node "ending").getD (PyVal.pbool false)) then
         (if pyTruthy ((alookup node "choices").getD (PyVal.plist [])) then
            Except.error ("故事结构错误：结局节点 " ++ p.1 ++ " 不应包含选项")
          else Except.ok ())
       else
         (match (alookup node "choices").getD (PyVal.plist []) with
          | PyVal.plist cs =>
            if cs.isEmpty then
              Except.error ("故事结构错误：节点 " ++ p.1 ++ " 缺少选项")
            else cs.forM (validateChoice p.1 fdv nodes)
          | _ => Except.error ("故事结构错误：节点 " ++ p.1 ++ " 缺少选项"))
     | _ => Except.error ("故事结构错误：节点 " ++ p.1 ++ " 缺少文本"))
  | _ => Except.error ("故事结构错误：节点 " ++ p.1 ++ " 必须是对象")

/-- validate_story (game.py lines 18 to 115): the root-level checks in source
order — root object, title, start non-blank, nodes non-empty dict,
flag_descriptions shape, stats_config shape and contents — and only then the
start-in-nodes check of line 45, followed by the per-node loop. -/
def validate_story (v : PyVal) : Except String Unit :=
  match v with
  | PyVal.pdict story =>
    (match pyGet story "title" with
     | PyVal.pstr t =>
       if (pyStrip t).isEmpty then Except.error "故事结构错误：缺少标题"
       else
         (match pyGet story "start" with
          | PyVal.pstr start =>
            if (pyStrip start).isEmpty then Except.error "故事结构错误：缺少起始节点"
            else
              (match pyGet story "nodes" with
               | PyVal.pdict nodes =>
                 if nodes.isEmpty then Except.error "故事结构错误：缺少节点列表"
                 else do
                   checkFlagDesc ((alookup story "flag_descriptions").getD
                     (PyVal.pdict []))
                   checkStatsConfig nodes (pyGet story "stats_config")
                   (if (alookup nodes start).isNone then
                      Except.error "故事结构错误：起始节点不存在"
                    else Except.ok ())
                   nodes.forM (validateNode
                     ((alookup story "flag_descriptions").getD (PyVal.pdict []))
                     nodes)
               | _ => Except.error "故事结构错误：缺少节点列表")
          | _ => Except.error "故事结构错误：缺少起始节点")
     | _ => Except.error "故事结构错误：缺少标题")
  | _ => Except.error "故事结构错误：根节点必须是对象"

/-- A nodes dictionary that does not contain the start key s0. -/
def c9nodes : List (String × PyVal) :=
  [("a", PyVal.pdict [("text", PyVal.pstr "文"), ("ending", PyVal.pbool true)])]

/-- A raw story whose start is absent from nodes and whose stats_config is
invalid (negative suspicion_max). -/
def c9story : PyVal :=
  PyVal.pdict [("title", PyVal.pstr "测试"), ("start", PyVal.pstr "s0"),
    ("nodes", PyVal.pdict c9nodes),
    ("stats_config", PyVal.pdict [("suspicion_max", PyVal.pint (-1)),
      ("suspicion_fail_node", PyVal.pstr "a")])]

/-! ## Claim C4 -/

/-- Claim C4: step is claimed never to raise for any raw input string, but the
digit branch guards the int conversion with str.isdigit, which also accepts
digit-only characters such as the superscript two; on such input int raises
ValueError out of step.  This theorem evaluates the embedded code at the
failing input: the superscript two passes the isdigit gate and step propagates
the ValueError. -/
theorem c4_step_raises_on_superscript_digit :
    pyStrIsDigit "²" = true ∧
    step (initialState demoStory) "²" demoStory =
      Except.error "ValueError: invalid literal for int() with base 10" :=
  ⟨rfl, rfl⟩

/-! ## Claim C10, counterexample -/

/-- Claim C10 as stated describes the prefix pattern as a route token
immediately followed by digits, 场, a colon and optional whitespace; the
source regex additionally requires the literal character 第 between the route
token and the digits.  The text below matches the stated pattern (route A,
digits 2, 场, ASCII colon) yet strip_scene_prefix leaves it unchanged with
empty metadata. -/
theorem c10_counterexample :
    strip_scene_prefix "A2场:x" = ("A2场:x", none) ∧ ("A2场:x" : String) ≠ "x" :=
  ⟨rfl, by decide⟩

/-! ## Basic lemmas about the renderers and the branch helpers -/

theorem renderNormal_ok {story : Story} {nid : String} {node : Node}
    (flags : List String) (stats : String → Int)
    (h : alookup story.nodes nid = some node) :
    renderNormal story nid flags stats =
      Except.ok (renderNormalNode node flags stats) := by
  unfold renderNormal
  rw [h]

theorem renderNormal_exists {story : Story} {nid : String}
    (flags : List String) (stats : String → Int)
    (h : (alookup story.nodes nid).isSome) :
    ∃ ls, renderNormal story nid flags stats = Except.ok ls := by
  obtain ⟨node, hn⟩ := Option.isSome_iff_exists.mp h
  exact ⟨_, renderNormal_ok flags stats hn⟩

theorem renderEnding_ok {story : Story} {nid : String} {node : Node}
    (stats : String → Int) (h : alookup story.nodes nid = some node) :
    renderEnding story nid stats =
      Except.ok [( strip_scene_prefix node.text).1, "结局：输入 1 重开，9 退出。"] := by
  unfold renderEnding
  rw [h]

theorem renderEnding_exists {story : Story} {nid : String}
    (stats : String → Int) (h : (alookup story.nodes nid).isSome) :
    ∃ ls, renderEnding story nid stats = Except.ok ls := by
  obtain ⟨node, hn⟩ := Option.isSome_iff_exists.mp h
  exact ⟨_, renderEnding_ok stats hn⟩

theorem stepEmptyInput_frame {s : GameState} {story : Story} {out : StepOut}
    (h : stepEmptyInput s story = Except.ok out) :
    out.callerState = s ∧ out.state = s ∧ out.fresh = false := by
  unfold stepEmptyInput at h
  split at h <;> split at h <;> cases h <;> exact ⟨rfl, rfl, rfl⟩

theorem stepEnding_frame {s : GameState} {t : String} {story : Story} {out : StepOut}
    (h : stepEnding s t story = Except.ok out) :
    out.callerState = s := by
  unfold stepEnding at h
  split at h
  · split at h <;> cases h <;> rfl
  · split at h
    · cases h
      rfl
    · split at h <;> cases h <;> rfl

theorem stepHelp_frame {s : GameState} {story : Story} {out : StepOut}
    (h : stepHelp s story = Except.ok out) :
    out.callerState = { s with help_mode := if s.help_mode = 1 then 0 else 1 } ∧
      out.state = out.callerState ∧ out.fresh = false := by
  unfold stepHelp at h
  split at h
  · cases h
  · split at h <;> cases h <;> exact ⟨rfl, rfl, rfl⟩

theorem stepBack_frame {s : GameState} {story : Story} {out : StepOut}
    (h : stepBack s story = Except.ok out) :
    out.callerState = s := by
  unfold stepBack at h
  split at h <;> split at h <;> cases h <;> rfl

theorem invalidOut_frame {s : GameState} {story : Story} {out : StepOut}
    (h : invalidOut s story = Except.ok out) :
    out.callerState = s ∧ out.state = s := by
  unfold invalidOut at h
  split at h <;> cases h <;> exact ⟨rfl, rfl⟩

theorem stepLand_frame {s : GameState} {story : Story} {nid : String}
    {flags2 history2 : List String} {stats3 : String → Int}
    {last2 : Option String} {dlines : List String} {out : StepOut}
    (h : stepLand s story nid flags2 history2 stats3 last2 dlines = Except.ok out) :
    out.callerState = s ∧ out.state.stats = stats3 := by
  unfold stepLand at h
  split at h
  · cases h
  · split at h <;> split at h <;> cases h <;> exact ⟨rfl, rfl⟩

theorem stepResolve_frame {s : GameState} {story : Story} {nid : String}
    {flags2 history2 : List String} {stats3 : String → Int}
    {last2 : Option String} {dlines : List String} {out : StepOut}
    (h : stepResolve s story nid flags2 history2 stats3 last2 dlines = Except.ok out) :
    out.callerState = s ∧ out.state.stats = stats3 := by
  unfold stepResolve at h
  split at h
  · split at h
    · split at h <;> cases h <;> exact ⟨rfl, rfl⟩
    · exact stepLand_frame h
  · exact stepLand_frame h

theorem stepChoice_frame {s : GameState} {k : Int} {story : Story} {out : StepOut}
    (h : stepChoice s k story = Except.ok out) :
    out.callerState = s ∧
      (out.state = s ∨ ∃ st, out.state.stats = clampSilver st) := by
  unfold stepChoice at h
  split at h
  · cases h
  · split at h
    · split at h
      · cases h
      · split at h
        · cases h
        · exact ⟨(stepResolve_frame h).1, Or.inr ⟨_, (stepResolve_frame h).2⟩⟩
    · exact ⟨(invalidOut_frame h).1, Or.inl (invalidOut_frame h).2⟩

/-! ## Claim C5 -/

/-- Claim C5 as stated: step never mutates the state dictionary passed in and
returns a freshly allocated state on every call.  This fails on the help
branch, which writes the toggled help_mode back into the argument dictionary
and returns that same dictionary: at the initial demo state with input 0, the
caller-owned dictionary ends the call with help_mode 1 and the returned state
is not fresh. -/
theorem c5_counterexample :
    ¬ (∀ (story : Story) (s : GameState) (input : String) (out : StepOut),
        step s input story = Except.ok out →
        out.callerState = s ∧ out.fresh = true) := by
  intro hclaim
  have hstep : ∃ out, step (initialState demoStory) "0" demoStory = Except.ok out ∧
      out.callerState.help_mode = 1 ∧ out.fresh = false := ⟨_, rfl, rfl, rfl⟩
  obtain ⟨out, he, hm, hf⟩ := hstep
  obtain ⟨h1, h2⟩ := hclaim demoStory (initialState demoStory) "0" out he
  rw [h2] at hf
  cases hf

/-- Claim C5 amended: step leaves the caller-owned argument dictionary
unchanged in every branch except help; on an input trimming to 0 in normal
mode it writes the toggled help_mode into the argument dictionary, and the
returned state is that same dictionary, not a fresh one.  (Determinism — equal
inputs give equal outputs — holds by construction: step is a function of its
arguments.) -/
theorem c5_step_frame (story : Story) (s : GameState) (input : String)
    (out : StepOut) (h : step s input story = Except.ok out) :
    out.callerState = s ∨
      (pyStrip input = "0" ∧ s.mode ≠ "ending" ∧
        out.callerState = { s with help_mode := if s.help_mode = 1 then 0 else 1 } ∧
        out.state = out.callerState ∧ out.fresh = false) := by
  unfold step at h
  split at h
  · exact Or.inl (stepEmptyInput_frame h).1
  · split at h
    · exact Or.inl (stepEnding_frame h)
    · split at h
      · next h0 hmode hhelp =>
        exact Or.inr ⟨hhelp, hmode, stepHelp_frame h⟩
      · split at h
        · cases h
          exact Or.inl rfl
        · split at h
          · exact Or.inl (stepBack_frame h)
          · split at h
            · split at h
              · cases h
              · exact Or.inl (stepChoice_frame h).1
            · exact Or.inl (invalidOut_frame h).1

/-- Witness for the amended claim C5 at a concrete call: exit input at the
initial demo state. -/
theorem c5_step_frame_witness :
    (⟨initialState demoStory, initialState demoStory, ["已退出游戏。"], true, false⟩ :
        StepOut).callerState = initialState demoStory ∨
      (pyStrip "9" = "0" ∧ (initialState demoStory).mode ≠ "ending" ∧
        (⟨initialState demoStory, initialState demoStory, ["已退出游戏。"], true, false⟩ :
            StepOut).callerState =
          { initialState demoStory with
              help_mode := if (initialState demoStory).help_mode = 1 then 0 else 1 } ∧
        (⟨initialState demoStory, initialState demoStory, ["已退出游戏。"], true, false⟩ :
            StepOut).state =
          (⟨initialState demoStory, initialState demoStory, ["已退出游戏。"], true, false⟩ :
            StepOut).callerState ∧
        (⟨initialState demoStory, initialState demoStory, ["已退出游戏。"], true, false⟩ :
            StepOut).fresh = false) :=
  c5_step_frame demoStory (initialState demoStory) "9" _ rfl

/-! ## Claim C3 -/

theorem clampSilver_nonneg (st : String → Int) : 0 ≤ clampSilver st "silver" := by
  unfold clampSilver
  split
  · simp [updateStat]
  · next hlt => omega

theorem stepEnding_state {s : GameState} {t : String} {story : Story} {out : StepOut}
    (h : stepEnding s t story = Except.ok out) :
    out.state = s ∨ out.state = freshRestart story := by
  unfold stepEnding at h
  split at h
  · split at h <;> cases h <;> exact Or.inr rfl
  · split at h
    · cases h
      exact Or.inl rfl
    · split at h <;> cases h <;> exact Or.inl rfl

theorem stepBack_state {s : GameState} {story : Story} {out : StepOut}
    (h : stepBack s story = Except.ok out) :
    out.state.stats = s.stats := by
  unfold stepBack at h
  split at h <;> split at h <;> cases h <;> rfl

theorem stepHelp_state {s : GameState} {story : Story} {out : StepOut}
    (h : stepHelp s story = Except.ok out) :
    out.state.stats = s.stats := by
  unfold stepHelp at h
  split at h
  · cases h
  · split at h <;> cases h <;> rfl

/-- Every branch of step keeps the silver stat non-negative: only the choice
branch changes the stats at all, and it clamps silver at zero after the
deltas; the restart branch zeroes all stats. -/
theorem step_silver_preserved {story : Story} {s : GameState} {input : String}
    {out : StepOut} (h : step s input story = Except.ok out)
    (h0 : 0 ≤ s.stats "silver") : 0 ≤ out.state.stats "silver" := by
  unfold step at h
  split at h
  · rw [(stepEmptyInput_frame h).2.1]
    exact h0
  · split at h
    · rcases stepEnding_state h with he | he <;> rw [he]
      · exact h0
      · exact le_refl 0
    · split at h
      · rw [stepHelp_state h]
        exact h0
      · split at h
        · cases h
          exact h0
        · split at h
          · rw [stepBack_state h]
            exact h0
          · split at h
            · split at h
              · cases h
              · rcases (stepChoice_frame h).2 with he | ⟨st, he⟩
                · rw [he]
                  exact h0
                · rw [he]
                  exact clampSilver_nonneg st
            · rw [(invalidOut_frame h).2]
              exact h0

/-- Claim C3: silver is never negative in any state reachable from the fresh
initial state; and concretely, applying the demo choice with deltas suspicion
plus two and silver minus five from zeroed stats yields suspicion 2 and silver
clamped to 0, with both the suspicion-increase and silver-decrease flavor
lines in the output. -/
theorem c3_silver_never_negative :
    (∀ (story : Story) (s : GameState), Reachable story s → 0 ≤ s.stats "silver") ∧
    (∃ out, step (initialState demoStory) "2" demoStory = Except.ok out ∧
      out.state.stats "suspicion" = 2 ∧ out.state.stats "silver" = 0 ∧
      "你感觉目光变得更锋利了。" ∈ out.lines ∧ "钱袋轻了些。" ∈ out.lines) := by
  constructor
  · intro story s hr
    induction hr with
    | init => exact le_refl 0
    | stepped s' input out _ hstep ih => exact step_silver_preserved hstep ih
  · refine ⟨_, rfl, ?_, ?_, ?_, ?_⟩ <;> decide

/-- Witness for claim C3 at a concrete reachable state. -/
theorem c3_silver_never_negative_witness :
    0 ≤ (initialState demoStory).stats "silver" :=
  c3_silver_never_negative.1 demoStory (initialState demoStory) Reachable.init

/-! ## Claim C6 -/

theorem mem_of_getLast?_eq_some {l : List String} {a : String}
    (h : l.getLast? = some a) : a ∈ l := by
  obtain ⟨hne, hx⟩ := List.mem_getLast?_eq_getLast (l := l) (x := a) h
  rw [hx]
  exact List.getLast_mem hne

theorem stateWF_node {story : Story} {s : GameState} (h : stateWF story s = true) :
    (alookup story.nodes s.node_id).isSome := by
  unfold stateWF at h
  simp only [Bool.and_eq_true] at h
  exact h.1.1.1

theorem stateWF_hist {story : Story} {s : GameState} (h : stateWF story s = true)
    {nid : String} (hm : nid ∈ s.history_stack) :
    (alookup story.nodes nid).isSome := by
  unfold stateWF at h
  simp only [Bool.and_eq_true, List.all_eq_true] at h
  exact h.1.2 nid hm

theorem stateWF_help {story : Story} {s : GameState} (h : stateWF story s = true) :
    s.help_mode = 0 ∨ s.help_mode = 1 := by
  unfold stateWF at h
  simp only [Bool.and_eq_true, Bool.or_eq_true, beq_iff_eq] at h
  exact h.2

/-- Claim C6: in normal mode, input 8 with non-empty history pops the most
recent entry into node_id, keeping flags and stats (the new dictionary carries
no last_choice or help_mode key, read back as none and 0), and renders the
restored node; with empty history the state is unchanged and the output is the
cannot-go-back message followed by the current rendering. -/
theorem c6_back_navigation (story : Story) (s : GameState)
    (hmode : s.mode = "normal") (hwf : stateWF story s = true) :
    (∀ last, s.history_stack.getLast? = some last →
      ∃ ls, renderNormal story last s.flags s.stats = Except.ok ls ∧
        step s "8" story = Except.ok
          ⟨s, { node_id := last, history_stack := s.history_stack.dropLast,
                mode := "normal", flags := s.flags, stats := s.stats,
                last_choice := none, help_mode := 0 }, ls, false, true⟩) ∧
    (s.history_stack = [] →
      ∃ ls, renderNormal story s.node_id s.flags s.stats = Except.ok ls ∧
        step s "8" story = Except.ok
          ⟨s, s, "无法后退，已经在起点。" :: ls, false, false⟩) := by
  have hstep : step s "8" story = stepBack s story := by
    simp only [step, show pyStrip "8" = "8" from rfl, hmode]
    simp
  constructor
  · intro last hlast
    have hnode : (alookup story.nodes last).isSome :=
      stateWF_hist hwf (mem_of_getLast?_eq_some hlast)
    obtain ⟨ls, hls⟩ := renderNormal_exists s.flags s.stats hnode
    refine ⟨ls, hls, ?_⟩
    rw [hstep]
    unfold stepBack
    simp only [hlast, hls]
  · intro hnil
    have hlast : s.history_stack.getLast? = none := by
      rw [hnil]
      rfl
    obtain ⟨ls, hls⟩ := renderNormal_exists s.flags s.stats (stateWF_node hwf)
    refine ⟨ls, hls, ?_⟩
    rw [hstep]
    unfold stepBack
    simp only [hlast, hls]

/-- Witness for claim C6 at a concrete state with non-empty history. -/
theorem c6_back_navigation_witness :
    ∃ ls, renderNormal demoStory "start" demoBackState.flags demoBackState.stats =
        Except.ok ls ∧
      step demoBackState "8" demoStory = Except.ok
        ⟨demoBackState,
          { node_id := "start", history_stack := demoBackState.history_stack.dropLast,
            mode := "normal", flags := demoBackState.flags,
            stats := demoBackState.stats, last_choice := none, help_mode := 0 },
          ls, false, true⟩ :=
  (c6_back_navigation demoStory demoBackState rfl (by decide)).1 "start" rfl

/-! ## Claim C7 -/

theorem storyWF_start {story : Story} (h : storyWF story = true) :
    (alookup story.nodes story.start).isSome := by
  unfold storyWF at h
  simp only [Bool.and_eq_true] at h
  exact h.1.1.1

/-- Claim C7: in ending mode, input 1 restarts with a fresh state at the start
node (empty history, empty flags, zeroed stats, normal mode) and renders it;
input 9 emits the exit message and signals exit with the state unchanged; any
other non-empty input emits the invalid-input message and re-renders the
ending with the state unchanged. -/
theorem c7_ending_mode (story : Story) (s : GameState)
    (hmode : s.mode = "ending") (hswf : storyWF story = true)
    (hwf : stateWF story s = true) :
    (∃ ls, renderNormal story story.start [] (fun _ => 0) = Except.ok ls ∧
      step s "1" story = Except.ok ⟨s, freshRestart story, ls, false, true⟩ ∧
      (freshRestart story).node_id = story.start ∧
      (freshRestart story).history_stack = [] ∧
      (freshRestart story).flags = [] ∧
      (freshRestart story).stats "suspicion" = 0 ∧
      (freshRestart story).stats "silver" = 0 ∧
      (freshRestart story).mode = "normal") ∧
    (step s "9" story = Except.ok ⟨s, s, ["已退出游戏。"], true, false⟩) ∧
    (∀ input, pyStrip input ≠ "" → pyStrip input ≠ "1" → pyStrip input ≠ "9" →
      ∃ ls, renderEnding story s.node_id s.stats = Except.ok ls ∧
        step s input story = Except.ok ⟨s, s, "无效输入" :: ls, false, false⟩) := by
  refine ⟨?_, ?_, ?_⟩
  · have hstep : step s "1" story = stepEnding s "1" story := by
      simp only [step, show pyStrip "1" = "1" from rfl, hmode]
      simp
    obtain ⟨ls, hls⟩ := renderNormal_exists [] (fun _ => 0) (storyWF_start hswf)
    refine ⟨ls, hls, ?_, rfl, rfl, rfl, rfl, rfl, rfl⟩
    rw [hstep]
    unfold stepEnding
    rw [if_pos rfl, hls]
  · have hstep : step s "9" story = stepEnding s "9" story := by
      simp only [step, show pyStrip "9" = "9" from rfl, hmode]
      simp
    rw [hstep]
    unfold stepEnding
    rw [if_neg (by decide), if_pos rfl]
  · intro input h1 h2 h3
    have hstep : step s input story = stepEnding s (pyStrip input) story := by
      unfold step
      rw [if_neg h1]
      simp only [hmode]
      rw [if_pos trivial]
    obtain ⟨ls, hls⟩ := renderEnding_exists s.stats (stateWF_node hwf)
    refine ⟨ls, hls, ?_⟩
    rw [hstep]
    unfold stepEnding
    rw [if_neg h2, if_neg h3, hls]

/-- Witness for claim C7: invalid input at a concrete ending state. -/
theorem c7_ending_mode_witness :
    ∃ ls, renderEnding demoStory demoEndingState.node_id demoEndingState.stats =
        Except.ok ls ∧
      step demoEndingState "abc" demoStory = Except.ok
        ⟨demoEndingState, demoEndingState, "无效输入" :: ls, false, false⟩ :=
  (c7_ending_mode demoStory demoEndingState rfl (by decide) (by decide)).2.2 "abc"
    (by decide) (by decide) (by decide)

/-! ## Claim C8 -/

/-- Claim C8: in normal mode, input 0 toggles help_mode between 0 and 1 in the
returned state (which is the mutated argument dictionary), appends the
diagnostic block exactly when help_mode was 1 on entry, and always re-renders
the normal node afterwards. -/
theorem c8_help_toggle (story : Story) (s : GameState)
    (hmode : s.mode = "normal") (hwf : stateWF story s = true) :
    ∃ node ls, alookup story.nodes s.node_id = some node ∧
      renderNormal story s.node_id s.flags s.stats = Except.ok ls ∧
      step s "0" story = Except.ok
        ⟨{ s with help_mode := 1 - s.help_mode },
         { s with help_mode := 1 - s.help_mode },
         ["帮助：输入 1..N 选择，8 后退，9 退出。", "提示：回车可重显当前内容。"] ++
           (if s.help_mode = 1 then debugBlock s node else []) ++ ls,
         false, false⟩ := by
  obtain ⟨node, hnode⟩ := Option.isSome_iff_exists.mp (stateWF_node hwf)
  obtain ⟨ls, hls⟩ := renderNormal_exists s.flags s.stats (stateWF_node hwf)
  refine ⟨node, ls, hnode, hls, ?_⟩
  have hstep : step s "0" story = stepHelp s story := by
    simp only [step, show pyStrip "0" = "0" from rfl, hmode]
    simp
  rw [hstep]
  unfold stepHelp
  rcases stateWF_help hwf with h0 | h1
  · simp [hnode, hls, h0]
  · simp [hnode, hls, h1]

/-- Witness for claim C8 at a concrete state entered with help_mode 1. -/
theorem c8_help_toggle_witness :
    ∃ node ls, alookup demoStory.nodes demoHelpState.node_id = some node ∧
      renderNormal demoStory demoHelpState.node_id demoHelpState.flags
          demoHelpState.stats = Except.ok ls ∧
      step demoHelpState "0" demoStory = Except.ok
        ⟨{ demoHelpState with help_mode := 1 - demoHelpState.help_mode },
         { demoHelpState with help_mode := 1 - demoHelpState.help_mode },
         ["帮助：输入 1..N 选择，8 后退，9 退出。", "提示：回车可重显当前内容。"] ++
           (if demoHelpState.help_mode = 1 then debugBlock demoHelpState node
            else []) ++ ls,
         false, false⟩ :=
  c8_help_toggle demoStory demoHelpState rfl (by decide)

/-! ## Claim C2 -/

theorem mem_visibleChoicesOf {node : Node} {flags : List String}
    {stats : String → Int} {c : Choice} :
    c ∈ visibleChoicesOf node flags stats ↔
      c ∈ node.choices ∧ (∀ f ∈ c.requires, f ∈ flags) ∧
        (∀ p ∈ c.requires_stats, p.2 ≤ stats p.1) := by
  unfold visibleChoicesOf choiceVisible
  rw [List.mem_filter]
  simp

theorem mem_lockedChoicesOf {node : Node} {flags : List String}
    {stats : String → Int} {c : Choice} {mf : List String}
    {ms : List (String × Int)} :
    (c, mf, ms) ∈ lockedChoicesOf node flags stats ↔
      c ∈ node.choices ∧
      mf = c.requires.filter (fun f => !flags.contains f) ∧
      ms = c.requires_stats.filter (fun p => decide (stats p.1 < p.2)) ∧
      (mf ≠ [] ∨ ms ≠ []) := by
  unfold lockedChoicesOf lockedEntry
  rw [List.mem_filter, List.mem_map]
  constructor
  · rintro ⟨⟨a, ha, heq⟩, hpred⟩
    rw [Prod.mk.injEq, Prod.mk.injEq] at heq
    obtain ⟨rfl, rfl, rfl⟩ := heq
    refine ⟨ha, rfl, rfl, ?_⟩
    simpa [List.isEmpty_iff, Decidable.not_and_iff_or_not] using hpred
  · rintro ⟨hc, rfl, rfl, hne⟩
    refine ⟨⟨c, hc, rfl⟩, ?_⟩
    simpa [List.isEmpty_iff, Decidable.not_and_iff_or_not] using hne

/-- Claim C2: a choice is returned by get_choices iff its requires set is a
subset of the flags and every requires_stats threshold is met; every choice
not visible appears in get_locked_choices paired with exactly the missing
flags and the unmet stat thresholds; both lists preserve the declared choice
order (they are sublists of the declared sequence, as are the per-choice
missing lists). -/
theorem c2_choice_filter (story : Story) (node_id : String) (node : Node)
    (flags : List String) (stats : String → Int)
    (h : alookup story.nodes node_id = some node) :
    ∃ vis lkd,
      get_choices story node_id flags stats = Except.ok vis ∧
      get_locked_choices story node_id flags stats = Except.ok lkd ∧
      (∀ c, c ∈ vis ↔ c ∈ node.choices ∧
        (∀ f ∈ c.requires, f ∈ flags) ∧
        (∀ p ∈ c.requires_stats, p.2 ≤ stats p.1)) ∧
      vis.Sublist node.choices ∧
      (∀ c ∈ node.choices,
        (¬ ((∀ f ∈ c.requires, f ∈ flags) ∧
            (∀ p ∈ c.requires_stats, p.2 ≤ stats p.1))) ↔
          ∃ mf ms, (c, mf, ms) ∈ lkd) ∧
      (∀ c mf ms, (c, mf, ms) ∈ lkd →
        (∀ f, f ∈ mf ↔ f ∈ c.requires ∧ f ∉ flags) ∧
        (∀ p, p ∈ ms ↔ p ∈ c.requires_stats ∧ stats p.1 < p.2) ∧
        mf.Sublist c.requires ∧ ms.Sublist c.requires_stats) ∧
      (lkd.map (fun e => e.1)).Sublist node.choices := by
  refine ⟨visibleChoicesOf node flags stats, lockedChoicesOf node flags stats,
    ?_, ?_, ?_, ?_, ?_, ?_, ?_⟩
  · unfold get_choices
    rw [h]
  · unfold get_locked_choices
    rw [h]
  · intro c
    exact mem_visibleChoicesOf
  · exact List.filter_sublist _
  · intro c hc
    constructor
    · intro hnot
      refine ⟨c.requires.filter (fun f => !flags.contains f),
        c.requires_stats.filter (fun p => decide (stats p.1 < p.2)),
        mem_lockedChoicesOf.mpr ⟨hc, rfl, rfl, ?_⟩⟩
      rcases Decidable.not_and_iff_or_not.mp hnot with hflag | hstat
      · left
        simp only [not_forall] at hflag
        obtain ⟨f, hf, hfn⟩ := hflag
        intro hemp
        have : f ∈ c.requires.filter (fun f => !flags.contains f) := by
          rw [List.mem_filter]
          simpa using ⟨hf, hfn⟩
        rw [hemp] at this
        cases this
      · right
        simp only [not_forall] at hstat
        obtain ⟨p, hp, hpn⟩ := hstat
        intro hemp
        have : p ∈ c.requires_stats.filter (fun p => decide (stats p.1 < p.2)) := by
          rw [List.mem_filter]
          exact ⟨hp, by simpa using not_le.mp hpn⟩
        rw [hemp] at this
        cases this
    · rintro ⟨mf, ms, hm⟩
      obtain ⟨-, rfl, rfl, hne⟩ := mem_lockedChoicesOf.mp hm
      rintro ⟨hflags, hstats⟩
      rcases hne with hne | hne
      · apply hne
        rw [List.filter_eq_nil]
        intro f hf
        simpa using hflags f hf
      · apply hne
        rw [List.filter_eq_nil]
        intro p hp
        simpa using hstats p hp
  · intro c mf ms hm
    obtain ⟨hc, rfl, rfl, -⟩ := mem_lockedChoicesOf.mp hm
    refine ⟨?_, ?_, List.filter_sublist _, List.filter_sublist _⟩
    · intro f
      rw [List.mem_filter]
      simp
    · intro p
      rw [List.mem_filter]
      simp
  · unfold lockedChoicesOf
    have h1 : ((node.choices.map (lockedEntry flags stats)).filter
        (fun e => !(e.2.1.isEmpty && e.2.2.isEmpty))).Sublist
        (node.choices.map (lockedEntry flags stats)) := List.filter_sublist _
    have h2 := h1.map (fun e => e.1)
    rw [List.map_map] at h2
    have h3 : ((fun e => e.1) ∘ lockedEntry flags stats) = id := by
      funext a
      rfl
    rw [h3, List.map_id] at h2
    exact h2

/-- Witness for claim C2 at the demo start node with one flag held. -/
theorem c2_choice_filter_witness :
    ∃ vis lkd,
      get_choices demoStory "start" ["clue"] (fun _ => 0) = Except.ok vis ∧
      get_locked_choices demoStory "start" ["clue"] (fun _ => 0) = Except.ok lkd ∧
      (∀ c, c ∈ vis ↔ c ∈ demoStartNode.choices ∧
        (∀ f ∈ c.requires, f ∈ ["clue"]) ∧
        (∀ p ∈ c.requires_stats, p.2 ≤ (fun _ => (0 : Int)) p.1)) ∧
      vis.Sublist demoStartNode.choices ∧
      (∀ c ∈ demoStartNode.choices,
        (¬ ((∀ f ∈ c.requires, f ∈ ["clue"]) ∧
            (∀ p ∈ c.requires_stats, p.2 ≤ (fun _ => (0 : Int)) p.1))) ↔
          ∃ mf ms, (c, mf, ms) ∈ lkd) ∧
      (∀ c mf ms, (c, mf, ms) ∈ lkd →
        (∀ f, f ∈ mf ↔ f ∈ c.requires ∧ f ∉ ["clue"]) ∧
        (∀ p, p ∈ ms ↔ p ∈ c.requires_stats ∧ (fun _ => (0 : Int)) p.1 < p.2) ∧
        mf.Sublist c.requires ∧ ms.Sublist c.requires_stats) ∧
      (lkd.map (fun e => e.1)).Sublist demoStartNode.choices :=
  c2_choice_filter demoStory "start" demoStartNode ["clue"] (fun _ => 0) rfl

/-! ## Claim C1 -/

theorem pyStrIsDigit_ne_empty {t : String} (h : pyStrIsDigit t = true) : t ≠ "" :=
  fun he => absurd (he ▸ h) (by decide)

/-- Claim C1: for a validated story with stats_config present, in normal mode,
choosing an in-range choice whose deltas leave suspicion at or above
suspicion_max moves the machine to suspicion_fail_node in ending mode, appends
the forced-failure flavor line after the delta flavor lines, and renders the
ending — regardless of the chosen choice's own destination (no assumption is
made about that destination, which may itself be an ending node). -/
theorem c1_suspicion_override (story : Story) (cfg : StatsConfig) (s : GameState)
    (node : Node) (input : String) (k : Int) (c : Choice)
    (hcfg : story.stats_config = some cfg)
    (hfail : (alookup story.nodes cfg.suspicion_fail_node).isSome)
    (hmode : s.mode = "normal")
    (hnode : alookup story.nodes s.node_id = some node)
    (hdigit : pyStrIsDigit (pyStrip input) = true)
    (hparse : pyIntParse? (pyStrip input) = some k)
    (hne0 : pyStrip input ≠ "0") (hne9 : pyStrip input ≠ "9")
    (hne8 : pyStrip input ≠ "8")
    (h1 : 1 ≤ k)
    (hc : (visibleChoicesOf node s.flags s.stats).get? (k - 1).toNat = some c)
    (hsusp : cfg.suspicion_max ≤
      clampSilver (applyDeltas s.stats c.delta_stats).1 "suspicion") :
    ∃ ls, renderEnding story cfg.suspicion_fail_node
        (clampSilver (applyDeltas s.stats c.delta_stats).1) = Except.ok ls ∧
      step s input story = Except.ok
        ⟨s, { node_id := cfg.suspicion_fail_node,
              history_stack := s.history_stack ++ [s.node_id],
              mode := "ending",
              flags := s.flags ++
                (c.set_flags.dedup.filter (fun x => !s.flags.contains x)),
              stats := clampSilver (applyDeltas s.stats c.delta_stats).1,
              last_choice := some c.text,
              help_mode := s.help_mode },
          (applyDeltas s.stats c.delta_stats).2 ++
            ["你察觉风声骤紧，麻烦在逼近。"] ++ ls,
          false, true⟩ := by
  have hlt : (k - 1).toNat < (visibleChoicesOf node s.flags s.stats).length := by
    obtain ⟨hh, -⟩ := List.get?_eq_some.mp hc
    exact hh
  have hk2 : k ≤ ((visibleChoicesOf node s.flags s.stats).length : Int) := by
    omega
  have hstep : step s input story = stepChoice s k story := by
    unfold step
    rw [if_neg (pyStrIsDigit_ne_empty hdigit)]
    simp only [hmode]
    rw [if_neg (by simp)]
    rw [if_neg hne0, if_neg hne9, if_neg hne8, if_pos hdigit, hparse]
  have hvis : get_choices story s.node_id s.flags s.stats =
      Except.ok (visibleChoicesOf node s.flags s.stats) := by
    unfold get_choices
    rw [hnode]
  have happly : apply_choice story s.node_id k s.flags s.stats =
      Except.ok (c.next, c.set_flags, c.delta_stats) := by
    simp only [apply_choice, hvis]
    rw [if_neg (by simp only [Bool.or_eq_true, decide_eq_true_eq]; omega)]
    simp only [hc]
  obtain ⟨ls, hls⟩ :=
    renderEnding_exists (clampSilver (applyDeltas s.stats c.delta_stats).1) hfail
  refine ⟨ls, hls, ?_⟩
  rw [hstep]
  simp only [stepChoice, hvis]
  rw [if_pos (by simp only [Bool.and_eq_true, decide_eq_true_eq]; exact ⟨h1, hk2⟩)]
  simp only [happly, hc, stepResolve, hcfg]
  rw [if_pos hsusp]
  simp only [hls]

/-- Witness for claim C1: the single risk-story choice points at an ending
node of its own (goodend), yet the machine lands at badend. -/
theorem c1_suspicion_override_witness :
    ∃ ls, renderEnding riskStory "badend"
        (clampSilver
          (applyDeltas (initialState riskStory).stats riskChoice.delta_stats).1) =
        Except.ok ls ∧
      step (initialState riskStory) "1" riskStory = Except.ok
        ⟨initialState riskStory,
          { node_id := "badend",
            history_stack := (initialState riskStory).history_stack ++
              [(initialState riskStory).node_id],
            mode := "ending",
            flags := (initialState riskStory).flags ++
              (riskChoice.set_flags.dedup.filter
                (fun x => !(initialState riskStory).flags.contains x)),
            stats := clampSilver
              (applyDeltas (initialState riskStory).stats riskChoice.delta_stats).1,
            last_choice := some riskChoice.text,
            help_mode := (initialState riskStory).help_mode },
          (applyDeltas (initialState riskStory).stats riskChoice.delta_stats).2 ++
            ["你察觉风声骤紧，麻烦在逼近。"] ++ ls,
          false, true⟩ :=
  c1_suspicion_override riskStory
    { suspicion_max := 3, suspicion_fail_node := "badend" }
    (initialState riskStory) riskStartNode "1" 1 riskChoice
    rfl (by decide) rfl rfl (by decide) (by decide) (by decide) (by decide)
    (by decide) (by decide) rfl (by decide)

/-! ## Claim C9 -/

/-- Claim C9 predicts that for this story the single surfaced error is the
start-node-missing reason; the code checks start-in-nodes only at line 45,
after the stats_config checks, so the surfaced error is the suspicion_max
reason instead. -/
theorem c9_counterexample :
    validate_story c9story =
      Except.error "故事结构错误：suspicion_max 必须是非负整数" ∧
    alookup c9nodes "s0" = none ∧
    ("故事结构错误：suspicion_max 必须是非负整数" : String) ≠
      "故事结构错误：起始节点不存在" :=
  ⟨rfl, rfl, by decide⟩

/-- Claim C9 amended: validate_story checks root, title, start non-blank,
nodes non-empty and flag_descriptions in the spec order, but checks the
presence of start in nodes only after the stats_config checks; hence whenever
the earlier checks pass and stats_config carries a negative suspicion_max, the
surfaced error is the stats_config reason — with no assumption about start
being present in nodes. -/
theorem c9_validate_order (story : List (String × PyVal)) (t st : String)
    (nodes : List (String × PyVal)) (cfg : List (String × PyVal)) (m : Int)
    (ht : pyGet story "title" = PyVal.pstr t)
    (ht2 : (pyStrip t).isEmpty = false)
    (hs : pyGet story "start" = PyVal.pstr st)
    (hs2 : (pyStrip st).isEmpty = false)
    (hn : pyGet story "nodes" = PyVal.pdict nodes)
    (hn2 : nodes.isEmpty = false)
    (hfd : checkFlagDesc ((alookup story "flag_descriptions").getD
      (PyVal.pdict [])) = Except.ok ())
    (hsc : pyGet story "stats_config" = PyVal.pdict cfg)
    (hm : pyGet cfg "suspicion_max" = PyVal.pint m)
    (hm2 : m < 0) :
    validate_story (PyVal.pdict story) =
      Except.error "故事结构错误：suspicion_max 必须是非负整数" := by
  have hcs : checkStatsConfig nodes (PyVal.pdict cfg) =
      Except.error "故事结构错误：suspicion_max 必须是非负整数" := by
    unfold checkStatsConfig
    simp only [hm]
    rw [if_pos hm2]
  simp only [validate_story, ht, hs, hn, ht2, hs2, hn2, hfd, hsc, hcs,
    Bool.false_eq_true, if_false]
  rfl

/-- Witness for the amended claim C9 at the concrete counterexample story. -/
theorem c9_validate_order_witness :
    validate_story (PyVal.pdict [("title", PyVal.pstr "测试"),
      ("start", PyVal.pstr "s0"), ("nodes", PyVal.pdict c9nodes),
      ("stats_config", PyVal.pdict [("suspicion_max", PyVal.pint (-1)),
        ("suspicion_fail_node", PyVal.pstr "a")])]) =
      Except.error "故事结构错误：suspicion_max 必须是非负整数" :=
  c9_validate_order _ "测试" "s0" c9nodes
    [("suspicion_max", PyVal.pint (-1)), ("suspicion_fail_node", PyVal.pstr "a")]
    (-1) rfl rfl rfl rfl rfl rfl rfl rfl rfl (by decide)

/-! ## Claim C10, amended: characterisation of the scene-prefix parser -/

theorem head?_dropWhile {α : Type} {p : α → Bool} :
    ∀ (l : List α) {c : α}, (l.dropWhile p).head? = some c → p c = false := by
  intro l
  induction l with
  | nil => intro c h; cases h
  | cons x xs ih =>
    intro c h
    rw [List.dropWhile_cons] at h
    split at h
    · exact ih h
    · next hx =>
      rw [List.head?_cons, Option.some.injEq] at h
      rw [← h]
      exact Bool.of_not_eq_true hx

theorem takeWhile_append_all {p : Char → Bool} :
    ∀ (l1 : List Char) (x : Char) (l2 : List Char),
      (∀ a ∈ l1, p a = true) → p x = false →
      (l1 ++ x :: l2).takeWhile p = l1 ∧ (l1 ++ x :: l2).dropWhile p = x :: l2 := by
  intro l1
  induction l1 with
  | nil =>
    intro x l2 _ hx
    rw [List.nil_append]
    constructor
    · rw [List.takeWhile_cons, hx]
      simp
    · rw [List.dropWhile_cons, hx]
      simp
  | cons a l1 ih =>
    intro x l2 hall hx
    have ha : p a = true := hall a (List.mem_cons_self a l1)
    obtain ⟨ht, hd⟩ := ih x l2 (fun b hb => hall b (List.mem_cons_of_mem a hb)) hx
    rw [List.cons_append]
    constructor
    · rw [List.takeWhile_cons, ha, ht]
      simp
    · rw [List.dropWhile_cons, ha, hd]
      simp

theorem completeScene_sound {cs : List Char} {n : Nat} {rest : List Char}
    (h : completeScene cs = some (n, rest)) :
    ∃ ds colon ws, cs = ds ++ '场' :: colon :: (ws ++ rest) ∧ ds ≠ [] ∧
      (∀ x ∈ ds, isPyReDigit x = true) ∧ (colon = ':' ∨ colon = '：') ∧
      (∀ x ∈ ws, isPySpace x = true) ∧ n = digitsToNat ds ∧
      (∀ c, rest.head? = some c → isPySpace c = false) := by
  unfold completeScene at h
  split at h
  · cases h
  · next hne =>
    split at h
    · next d c rest2 heq =>
      split at h
      · next hcolon =>
        rw [Bool.and_eq_true, decide_eq_true_eq] at hcolon
        obtain ⟨rfl, hcolon⟩ := hcolon
        rw [Option.some.injEq, Prod.mk.injEq] at h
        obtain ⟨hn, hrest⟩ := h
        refine ⟨cs.takeWhile isPyReDigit, c, rest2.takeWhile isPySpace,
          ?_, ?_, ?_, ?_, ?_, hn.symm, ?_⟩
        · rw [← hrest]
          conv_lhs => rw [← List.takeWhile_append_dropWhile (p := isPyReDigit) (l := cs),
            heq, ← List.takeWhile_append_dropWhile (p := isPySpace) (l := rest2)]
        · simpa [List.isEmpty_iff] using hne
        · intro x hx
          exact List.mem_takeWhile_imp hx
        · simpa using hcolon
        · intro x hx
          exact List.mem_takeWhile_imp hx
        · intro c2 hc2
          rw [← hrest] at hc2
          exact head?_dropWhile rest2 hc2
      · cases h
    · cases h

theorem completeScene_complete {ds : List Char} {colon : Char}
    (tail0 : List Char) (h1 : ds ≠ []) (h2 : ∀ x ∈ ds, isPyReDigit x = true)
    (h3 : colon = ':' ∨ colon = '：') :
    (completeScene (ds ++ '场' :: colon :: tail0)).isSome = true := by
  obtain ⟨ht, hd⟩ := takeWhile_append_all ds '场' (colon :: tail0) h2 (by decide)
  unfold completeScene
  rw [ht, hd]
  rw [if_neg (by simpa [List.isEmpty_iff] using h1)]
  rcases h3 with rfl | rfl <;> rfl

theorem sceneWalk_sound :
    ∀ (cs acc : List Char) (route : String) (n : Nat) (rest : List Char),
      sceneWalk acc cs = some (route, n, rest) →
      ∃ r ds colon ws, route.data = acc.reverse ++ r ∧
        cs = r ++ '第' :: (ds ++ '场' :: colon :: (ws ++ rest)) ∧
        (∀ x ∈ r, isPySpace x = false) ∧ ds ≠ [] ∧
        (∀ x ∈ ds, isPyReDigit x = true) ∧ (colon = ':' ∨ colon = '：') ∧
        (∀ x ∈ ws, isPySpace x = true) ∧ (r = [] → acc ≠ []) ∧
        n = digitsToNat ds ∧
        (∀ c, rest.head? = some c → isPySpace c = false) := by
  intro cs
  induction cs with
  | nil =>
    intro acc route n rest h
    cases h
  | cons c cs ih =>
    intro acc route n rest h
    unfold sceneWalk at h
    split at h
    · next hcond =>
      rw [Bool.and_eq_true, decide_eq_true_eq, Bool.not_eq_true',
        List.isEmpty_eq_false] at hcond
      obtain ⟨rfl, hacc⟩ := hcond
      split at h
      · next n0 rest0 heq =>
        rw [Option.some.injEq, Prod.mk.injEq, Prod.mk.injEq] at h
        obtain ⟨hroute, hn, hrest⟩ := h
        obtain ⟨ds, colon, ws, hcs, hds, hdig, hcolon, hws, hn0, hrh⟩ :=
          completeScene_sound heq
        refine ⟨[], ds, colon, ws, ?_, ?_, ?_, hds, hdig, hcolon, hws,
          fun _ => hacc, ?_, ?_⟩
        · rw [← hroute]
          simp
        · rw [List.nil_append, ← hrest, ← hcs]
        · intro x hx
          cases hx
        · rw [← hn, ← hrest] at *
          exact hn0
        · intro c2 hc2
          rw [← hrest] at *
          exact hrh c2 hc2
      · obtain ⟨r, ds, colon, ws, hroute, hcs, hr, hds, hdig, hcolon, hws,
          hre, hn, hrh⟩ := ih ('第' :: acc) route n rest h
        refine ⟨'第' :: r, ds, colon, ws, ?_, ?_, ?_, hds, hdig, hcolon, hws,
          ?_, hn, hrh⟩
        · rw [hroute, List.reverse_cons, List.append_assoc]
          rfl
        · rw [hcs]
          rfl
        · intro x hx
          rcases List.mem_cons.mp hx with rfl | hx
          · decide
          · exact hr x hx
        · intro hcr
          cases hcr
    · next hcond =>
      split at h
      · cases h
      · next hsp =>
        obtain ⟨r, ds, colon, ws, hroute, hcs, hr, hds, hdig, hcolon, hws,
          hre, hn, hrh⟩ := ih (c :: acc) route n rest h
        refine ⟨c :: r, ds, colon, ws, ?_, ?_, ?_, hds, hdig, hcolon, hws,
          ?_, hn, hrh⟩
        · rw [hroute, List.reverse_cons, List.append_assoc]
          rfl
        · rw [hcs]
          rfl
        · intro x hx
          rcases List.mem_cons.mp hx with rfl | hx
          · exact Bool.of_not_eq_true hsp
          · exact hr x hx
        · intro hcr
          cases hcr

theorem sceneWalk_complete :
    ∀ (cs acc : List Char) (r ds : List Char) (colon : Char) (tail0 : List Char),
      cs = r ++ '第' :: (ds ++ '场' :: colon :: tail0) →
      (∀ x ∈ r, isPySpace x = false) → (r ≠ [] ∨ acc ≠ []) →
      ds ≠ [] → (∀ x ∈ ds, isPyReDigit x = true) →
      (colon = ':' ∨ colon = '：') →
      (sceneWalk acc cs).isSome = true := by
  intro cs
  induction cs with
  | nil =>
    intro acc r ds colon tail0 hcs hr hne hds hdig hcolon
    exact absurd hcs (by cases r <;> simp)
  | cons c cs ih =>
    intro acc r ds colon tail0 hcs hr hne hds hdig hcolon
    unfold sceneWalk
    split
    · split
      · rfl
      · next heq =>
        cases r with
        | nil =>
          rw [List.nil_append] at hcs
          injection hcs with h1 h2
          have hcomp := completeScene_complete tail0 hds hdig hcolon
          rw [← h2, heq] at hcomp
          cases hcomp
        | cons a r2 =>
          rw [List.cons_append] at hcs
          injection hcs with h1 h2
          exact ih (c :: acc) r2 ds colon tail0 h2
            (fun x hx => hr x (List.mem_cons_of_mem a hx))
            (Or.inr (List.cons_ne_nil c acc)) hds hdig hcolon
    · next hcond =>
      split
      · next hsp =>
        cases r with
        | nil =>
          rw [List.nil_append] at hcs
          injection hcs with h1 h2
          rw [h1] at hsp
          exact absurd hsp (by decide)
        | cons a r2 =>
          rw [List.cons_append] at hcs
          injection hcs with h1 h2
          have hra := hr a (List.mem_cons_self a r2)
          rw [← h1] at hra
          rw [hra] at hsp
          cases hsp
      · next hsp =>
        cases r with
        | nil =>
          rw [List.nil_append] at hcs
          injection hcs with h1 h2
          rcases hne with hne | hne
          · exact absurd rfl hne
          · exfalso
            apply hcond
            rw [h1]
            simp [List.isEmpty_eq_false.mpr hne]
        | cons a r2 =>
          rw [List.cons_append] at hcs
          injection hcs with h1 h2
          exact ih (c :: acc) r2 ds colon tail0 h2
            (fun x hx => hr x (List.mem_cons_of_mem a hx))
            (Or.inr (List.cons_ne_nil c acc)) hds hdig hcolon

/-- Claim C10 amended: the recognised prefix pattern is a route token (the
shortest non-empty run of non-whitespace characters making the remainder
match), then the literal character 第, then one or more decimal digits, then
场, then an ASCII or fullwidth colon, then optional whitespace; on a match the
prefix is removed and the metadata carries the route (without the 第
separator) and the digits parsed as an integer; on no match the text is
returned unchanged with empty metadata.  Stated as: the no-match result is the
identity; a match decomposes the text exactly as described; a text of that
shape always matches; and the concrete example from the test data. -/
theorem c10_scene_prefix_shape :
    (∀ t : String, ( strip_scene_prefix t).2 = none →
      strip_scene_prefix t = (t, none)) ∧
    (∀ (t clean route : String) (idx : Nat),
      strip_scene_prefix t = (clean, some (route, idx)) →
      ∃ ds colon ws, t.data = route.data ++ '第' ::
          (ds ++ '场' :: colon :: (ws ++ clean.data)) ∧
        route.data ≠ [] ∧ (∀ x ∈ route.data, isPySpace x = false) ∧
        ds ≠ [] ∧ (∀ x ∈ ds, isPyReDigit x = true) ∧
        (colon = ':' ∨ colon = '：') ∧ (∀ x ∈ ws, isPySpace x = true) ∧
        idx = digitsToNat ds ∧
        (∀ c, clean.data.head? = some c → isPySpace c = false)) ∧
    (∀ (t : String) (r ds : List Char) (colon : Char) (tail0 : List Char),
      t.data = r ++ '第' :: (ds ++ '场' :: colon :: tail0) → r ≠ [] →
      (∀ x ∈ r, isPySpace x = false) → ds ≠ [] →
      (∀ x ∈ ds, isPyReDigit x = true) → (colon = ':' ∨ colon = '：') →
      ( strip_scene_prefix t).2.isSome = true) ∧
    strip_scene_prefix "风月暗线第2场：帘后" = ("帘后", some ("风月暗线", 2)) := by
  refine ⟨?_, ?_, ?_, rfl⟩
  · intro t h
    unfold strip_scene_prefix at *
    split at h
    · rfl
    · cases h
  · intro t clean route idx h
    unfold strip_scene_prefix at h
    split at h
    · cases h
    · next route0 n0 rest0 heq =>
      rw [Prod.mk.injEq, Option.some.injEq, Prod.mk.injEq] at h
      obtain ⟨hclean, hroute, hidx⟩ := h
      obtain ⟨r, ds, colon, ws, hroute2, hcs, hr, hds, hdig, hcolon, hws,
        hre, hn, hrh⟩ := sceneWalk_sound t.data [] route0 n0 rest0 heq
      rw [List.reverse_nil, List.nil_append] at hroute2
      refine ⟨ds, colon, ws, ?_, ?_, ?_, hds, hdig, hcolon, hws, ?_, ?_⟩
      · rw [hcs, ← hroute, hroute2, ← hclean]
      · rw [← hroute, hroute2]
        intro hnil
        rw [hnil] at hre
        exact absurd rfl (hre rfl)
      · rw [← hroute, hroute2]
        exact hr
      · rw [← hidx]
        exact hn
      · rw [← hclean]
        exact hrh
  · intro t r ds colon tail0 hcs hr0 hr hds hdig hcolon
    unfold strip_scene_prefix
    have := sceneWalk_complete t.data [] r ds colon tail0 hcs hr (Or.inl hr0)
      hds hdig hcolon
    split
    · next heq =>
      rw [heq] at this
      cases this
    · rfl

/-- Witness for the amended claim C10: a text of the described shape (with the
第 separator present) is recognised. -/
theorem c10_scene_prefix_shape_witness :
    ( strip_scene_prefix "A第2场:x").2.isSome = true :=
  c10_scene_prefix_shape.2.2.1 "A第2场:x" ['A'] ['2'] ':' ['x'] rfl
    (by decide) (by decide) (by decide) (by decide) (Or.inl rfl)
